import Mathlib

/-!
Shallow embedding of the gas-pipeline simulator core
(src/gas_simulator: plc/base_plc.py, plc/emergency_shutdown_plc.py,
plc/plc_manager.py, scada/scada_system.py, physics/gas_physics_engine.py,
sensors/sensor_manager.py).

Conventions of the embedding:
* Python floats are modelled as rationals (ℚ); the values stored in the
  sensor-data dictionaries and PLC input/output maps are booleans or
  numbers, modelled by the `Value` sum below; Python truthiness of such a
  value is `Value.toBool`, numeric coercion (True = 1, False = 0) is
  `Value.toNum`.
* Python dicts keyed by strings are association lists preserving insertion
  order; assignment `d[k] = v` is `setAssoc` (update in place if the key
  exists, append otherwise), which matches dict insertion-order semantics.
* The global clock (`time.time()` / `datetime.now()`): all clock reads made
  during a single method call are modelled as one instant `now : ℚ` passed
  to that call.
* The global random generator is modelled as a stream of draws
  (`List ℚ`): `random.gauss(mu, sigma)` consumes one draw `x` and yields
  `mu + sigma * x`; `random.random()` consumes one draw and yields it.
* A Python method that can raise mutates `self` up to the point of the
  exception; this is modelled by `HookResult`, whose `err` constructor
  carries the partially mutated state together with the message.
* `BasePLC.memory`, timers and counters are not modelled: no claim under
  consideration reads or writes them.
-/

namespace GasSim

/-- A value stored in a sensor-data dict or a PLC input/output map:
the simulator only ever stores booleans and numbers there. -/
inductive Value where
  | vb (b : Bool)
  | vq (q : ℚ)
deriving DecidableEq, Repr

/-- Python truthiness of a stored value (`bool(v)`). -/
def Value.toBool : Value → Bool
  | .vb b => b
  | .vq q => decide (q ≠ 0)

/-- Python numeric coercion of a stored value (`True` counts as 1). -/
def Value.toNum : Value → ℚ
  | .vb b => if b then 1 else 0
  | .vq q => q

/-- Dict lookup `d.get(k)` on an insertion-ordered association list. -/
def lookupAssoc {α : Type} (m : List (String × α)) (k : String) : Option α :=
  match m.find? (fun p => p.1 = k) with
  | some p => some p.2
  | none => none

/-- Dict assignment `d[k] = v`: overwrite in place if the key exists,
append at the end otherwise (dict insertion-order semantics). -/
def setAssoc {α : Type} (m : List (String × α)) (k : String) (v : α) :
    List (String × α) :=
  if m.any (fun p => p.1 = k) then
    m.map (fun p => if p.1 = k then (k, v) else p)
  else
    m ++ [(k, v)]

/-- Dataclass `PLCInput`: a timestamped, quality-tagged input value. -/
structure PLCInput where
  value : Value
  timestamp : ℚ
  quality : String
deriving DecidableEq, Repr

/-- Dataclass `PLCOutput`: a timestamped output value. -/
structure PLCOutput where
  value : Value
  timestamp : ℚ
deriving DecidableEq, Repr

/-- Dataclass `PLCAlarm`. -/
structure PLCAlarm where
  alarm_id : String
  severity : String
  message : String
  timestamp : ℚ
  acknowledged : Bool
deriving DecidableEq, Repr

/-- The state of a `BasePLC` instance.  The kind-specific attributes a
subclass adds to `self` live in the `custom` field. -/
structure PLCState (σ : Type) where
  plc_id : String
  node_id : String
  plc_type : String
  inputs : List (String × PLCInput)
  outputs : List (String × PLCOutput)
  alarms : List PLCAlarm
  is_active : Bool
  scan_time : ℚ
  last_scan : ℚ
  custom : σ
deriving DecidableEq, Repr

/-- Method `BasePLC.update_input`: store a value in the input map with quality. -/
def updateInput {σ : Type} (s : PLCState σ) (now : ℚ) (address : String)
    (value : Value) (quality : String := "GOOD") : PLCState σ :=
  { s with inputs := setAssoc s.inputs address ⟨value, now, quality⟩ }

/-- Method `BasePLC.set_output`: store a value in the output map. -/
def setOutput {σ : Type} (s : PLCState σ) (now : ℚ) (address : String)
    (value : Value) : PLCState σ :=
  { s with outputs := setAssoc s.outputs address ⟨value, now⟩ }

/-- Method `BasePLC.get_input`: read an input value, with a default. -/
def getInput {σ : Type} (s : PLCState σ) (address : String)
    (default : Value) : Value :=
  match lookupAssoc s.inputs address with
  | some inp => inp.value
  | none => default

/-- Method `BasePLC.get_output`: read a stored output value, if present. -/
def getOutput {σ : Type} (s : PLCState σ) (address : String) :
    Option Value :=
  match lookupAssoc s.outputs address with
  | some out => some out.value
  | none => none

/-- Method `BasePLC.add_alarm`: append a fresh (unacknowledged) alarm. -/
def addAlarm {σ : Type} (s : PLCState σ) (now : ℚ) (alarm_id : String)
    (severity : String) (message : String) : PLCState σ :=
  { s with alarms := s.alarms ++ [⟨alarm_id, severity, message, now, false⟩] }

/-- Method `BasePLC.acknowledge_alarm`. -/
def acknowledgeAlarm {σ : Type} (s : PLCState σ) (alarm_id : String) :
    PLCState σ :=
  { s with alarms := s.alarms.map (fun a =>
      if a.alarm_id = alarm_id then { a with acknowledged := true } else a) }

/-- Method `BasePLC.clear_acknowledged_alarms`. -/
def clearAcknowledgedAlarms {σ : Type} (s : PLCState σ) : PLCState σ :=
  { s with alarms := s.alarms.filter (fun a => ¬ a.acknowledged) }

/-- Method `BasePLC.should_scan`: `(time.time() - self.last_scan) >= self.scan_time`. -/
def shouldScan {σ : Type} (s : PLCState σ) (now : ℚ) : Bool :=
  decide (now - s.last_scan ≥ s.scan_time)

/-- Outcome of running a Python method that can raise: `ok` is normal
return, `err` carries the partially mutated state at the point of the
exception together with `str(e)`. -/
inductive HookResult (α : Type) where
  | ok (s : α)
  | err (s : α) (msg : String)
deriving DecidableEq, Repr

/-- The state a hook left behind, whether it returned or raised. -/
def HookResult.state {α : Type} : HookResult α → α
  | .ok s => s
  | .err s _ => s

/-- The two abstract hooks of `BasePLC`, implemented by each subclass.
Each receives the call's clock instant (for the timestamps it writes). -/
structure Hooks (σ : Type) where
  updInputs : ℚ → List (String × Value) → PLCState σ →
    HookResult (PLCState σ)
  execLogic : ℚ → PLCState σ → HookResult (PLCState σ)

/-- Method `BasePLC.execute_scan`: gate on `is_active` and `should_scan`; run
`update_inputs` then `execute_logic`; on success stamp `last_scan` and
return the output value map; on an exception from either hook, append a
HIGH `SCAN_ERROR_<plc_id>` alarm to the (partially mutated) state and
return an empty map. -/
def executeScan {σ : Type} (hk : Hooks σ) (s : PLCState σ)
    (sensor_data : List (String × Value)) (now : ℚ) :
    List (String × Value) × PLCState σ :=
  if ¬ s.is_active ∨ ¬ shouldScan s now then
    ([], s)
  else
    match hk.updInputs now sensor_data s with
    | .err s1 msg =>
        ([], addAlarm s1 now ("SCAN_ERROR_" ++ s1.plc_id) "HIGH"
          ("PLC scan error: " ++ msg))
    | .ok s1 =>
        match hk.execLogic now s1 with
        | .err s2 msg =>
            ([], addAlarm s2 now ("SCAN_ERROR_" ++ s2.plc_id) "HIGH"
              ("PLC scan error: " ++ msg))
        | .ok s2 =>
            let s3 := { s2 with last_scan := now }
            (s3.outputs.map (fun p => (p.1, p.2.value)), s3)

/-- The post-state of one `execute_scan` call. -/
def stepState {σ : Type} (hk : Hooks σ) (s : PLCState σ)
    (call : List (String × Value) × ℚ) : PLCState σ :=
  (executeScan hk s call.1 call.2).2

/-- Fold `execute_scan` over a list of calls (sensor data, clock instant). -/
def runScans {σ : Type} (hk : Hooks σ) (s : PLCState σ) :
    List (List (String × Value) × ℚ) → PLCState σ
  | [] => s
  | call :: rest => runScans hk (stepState hk s call) rest

/-- A call on which the scan actually ran its two hooks to completion:
the controller was active, the scan-period gate passed, and neither hook
raised. -/
def scanSucceeds {σ : Type} (hk : Hooks σ) (s : PLCState σ)
    (sensor_data : List (String × Value)) (now : ℚ) : Prop :=
  s.is_active = true ∧ shouldScan s now = true ∧
    ∃ s1 s2, hk.updInputs now sensor_data s = .ok s1 ∧
      hk.execLogic now s1 = .ok s2

/-- A run of calls none of which is a successful scan. -/
def noSuccessRun {σ : Type} (hk : Hooks σ) (s : PLCState σ) :
    List (List (String × Value) × ℚ) → Prop
  | [] => True
  | call :: rest =>
      ¬ scanSucceeds hk s call.1 call.2 ∧
        noSuccessRun hk (stepState hk s call) rest

/-- The scheduling-relevant fields of a controller state. -/
def sched {σ : Type} (s : PLCState σ) : ℚ × ℚ × Bool × String :=
  (s.last_scan, s.scan_time, s.is_active, s.plc_id)

/-- The hooks leave the scan schedule, the active flag and the id alone —
true of all eight concrete PLC subclasses, whose hooks only touch inputs,
outputs, memory, timers, counters, alarms and their own custom state. -/
def preservesSchedule {σ : Type} (hk : Hooks σ) : Prop :=
  (∀ now d s, sched (hk.updInputs now d s).state = sched s) ∧
  (∀ now s, sched (hk.execLogic now s).state = sched s)

/-- One of the two hooks raised during the scan: either `update_inputs`
raised, or it returned and `execute_logic` raised; `s'` is the partially
mutated state at the exception, `msg` the exception text. -/
def hookFailure {σ : Type} (hk : Hooks σ) (s : PLCState σ)
    (sensor_data : List (String × Value)) (now : ℚ) (s' : PLCState σ)
    (msg : String) : Prop :=
  hk.updInputs now sensor_data s = .err s' msg ∨
    ∃ s1, hk.updInputs now sensor_data s = .ok s1 ∧
      hk.execLogic now s1 = .err s' msg

/-! Emergency Shutdown PLC (plc/emergency_shutdown_plc.py). -/

/-- Custom state of `EmergencyShutdownPLC`: the `esd_active` flag,
initialised to `False` in the constructor. -/
structure ESDCore where
  esd_active : Bool
deriving DecidableEq, Repr

/-- Method `EmergencyShutdownPLC.update_inputs`: read the four trigger
sensors for the bound node (with their defaults) and write them into the
input map; the high-pressure trip is the comparison `pressure > 90.0`. -/
def esdUpdateInputs (now : ℚ) (sensor_data : List (String × Value))
    (s : PLCState ESDCore) : HookResult (PLCState ESDCore) :=
  let emergency_button :=
    (lookupAssoc sensor_data ("emergency_button_" ++ s.node_id)).getD (.vb false)
  let s := updateInput s now "EMERGENCY_BUTTON" emergency_button
  let high_pressure := decide
    (((lookupAssoc sensor_data ("pressure_" ++ s.node_id)).getD (.vq 50)).toNum > 90)
  let s := updateInput s now "HIGH_PRESSURE_TRIP" (.vb high_pressure)
  let fire_detected :=
    (lookupAssoc sensor_data ("fire_detector_" ++ s.node_id)).getD (.vb false)
  let s := updateInput s now "FIRE_DETECTED" fire_detected
  let gas_leak :=
    (lookupAssoc sensor_data ("gas_leak_" ++ s.node_id)).getD (.vb false)
  let s := updateInput s now "GAS_LEAK" gas_leak
  .ok s

/-- Method `EmergencyShutdownPLC.execute_logic`: OR the four trigger
inputs; a rising trigger latches `esd_active` and raises the CRITICAL
`EMERGENCY_SHUTDOWN` alarm; while latched, close all valves, stop the
compressors, and vent unless fire is detected; always publish
`ESD_ACTIVE`. -/
def esdExecuteLogic (now : ℚ) (s : PLCState ESDCore) :
    HookResult (PLCState ESDCore) :=
  let emergency_button := (getInput s "EMERGENCY_BUTTON" (.vb false)).toBool
  let high_pressure := (getInput s "HIGH_PRESSURE_TRIP" (.vb false)).toBool
  let fire_detected := (getInput s "FIRE_DETECTED" (.vb false)).toBool
  let gas_leak := (getInput s "GAS_LEAK" (.vb false)).toBool
  let should_shutdown := emergency_button || high_pressure || fire_detected || gas_leak
  let s :=
    if should_shutdown && ! s.custom.esd_active then
      addAlarm { s with custom := ⟨true⟩ } now "EMERGENCY_SHUTDOWN" "CRITICAL"
        "Emergency shutdown activated"
    else s
  let s :=
    if s.custom.esd_active then
      let s := setOutput s now "ESD_VALVE_1" (.vb false)
      let s := setOutput s now "ESD_VALVE_2" (.vb false)
      let s := setOutput s now "MAIN_SUPPLY_VALVE" (.vb false)
      let s := setOutput s now "COMPRESSOR_STOP" (.vb true)
      if ! fire_detected then setOutput s now "VENT_VALVE" (.vb true) else s
    else s
  .ok (setOutput s now "ESD_ACTIVE" (.vb s.custom.esd_active))

/-- The two hooks of `EmergencyShutdownPLC`. -/
def esdHooks : Hooks ESDCore :=
  ⟨esdUpdateInputs, esdExecuteLogic⟩

/-- One `execute_scan` call on an Emergency Shutdown controller. -/
def esdScan (s : PLCState ESDCore) (sensor_data : List (String × Value))
    (now : ℚ) : List (String × Value) × PLCState ESDCore :=
  executeScan esdHooks s sensor_data now

/-- The OR of the four ESD trigger conditions as read from the sensor
data for a given node id (exactly the values `update_inputs` stores and
`execute_logic` ORs on the same scan). -/
def esdTrigger (node_id : String) (sensor_data : List (String × Value)) : Bool :=
  ((lookupAssoc sensor_data ("emergency_button_" ++ node_id)).getD (.vb false)).toBool ||
  decide (((lookupAssoc sensor_data ("pressure_" ++ node_id)).getD (.vq 50)).toNum > 90) ||
  ((lookupAssoc sensor_data ("fire_detector_" ++ node_id)).getD (.vb false)).toBool ||
  ((lookupAssoc sensor_data ("gas_leak_" ++ node_id)).getD (.vb false)).toBool

/-! Supervisory aggregator (scada/scada_system.py). -/

/-- An alarm dict as produced by `PLCManager.get_all_alarms`. -/
structure SCADAAlarm where
  plc_id : String
  node_id : String
  alarm_id : String
  severity : String
  message : String
  timestamp : ℚ
  acknowledged : Bool
deriving DecidableEq, Repr

/-- The mutable state of `SCADASystem`: the last computed status string
and the alarm list collected from the PLC manager. -/
structure SCADAState where
  system_status : String
  alarms : List SCADAAlarm
deriving DecidableEq, Repr

/-- Method `SCADASystem.evaluate_system_status`: count CRITICAL and HIGH
severities in the stored alarm list (`self.alarms`) and classify.  The
method's network/sensor/output parameters are ignored by the code, so
the embedding takes only the alarm list the method actually reads. -/
def evaluateSystemStatus (alarms : List SCADAAlarm) : String :=
  let critical_alarms := (alarms.filter (fun a => a.severity = "CRITICAL")).length
  let high_alarms := (alarms.filter (fun a => a.severity = "HIGH")).length
  if critical_alarms > 0 then "CRITICAL"
  else if high_alarms > 2 then "ALARM"
  else if high_alarms > 0 then "WARNING"
  else "NORMAL"

/-- Method `SCADASystem.update`: evaluate the system status (which reads
`self.alarms`, still holding the alarms collected on the previous call),
then refresh `self.alarms` from the PLC manager (`current_alarms` is what
`get_all_alarms` returns during this call), and return the status string
and the alarm count of the returned dict. -/
def scadaUpdate (s : SCADAState) (current_alarms : List SCADAAlarm) :
    SCADAState × String × ℕ :=
  let status := evaluateSystemStatus s.alarms
  let s' : SCADAState := ⟨status, current_alarms⟩
  (s', status, s'.alarms.length)

/-! Controller fleet assignment (plc/plc_manager.py). -/

/-- The eight controller kinds, in the insertion order of
`PLCManager.plc_types`. -/
inductive PLCType where
  | PRESSURE_CONTROL
  | FLOW_REGULATION
  | COMPRESSOR_MANAGEMENT
  | VALVE_CONTROL
  | SAFETY_MONITORING
  | LEAK_DETECTION
  | TEMPERATURE_CONTROL
  | EMERGENCY_SHUTDOWN
deriving DecidableEq, Repr

/-- The branch cascade of `initialize_plcs` choosing a controller kind
for the node at position `i` with the given `type` field: role-specific
kinds first, then the `i % 4` round-robin; the final `else` arm
(EMERGENCY_SHUTDOWN) is in the source but `i % 4` always matches one of
the four previous arms. -/
def assignByRole (i : ℕ) (node_type : String) : PLCType :=
  if node_type = "source" then .PRESSURE_CONTROL
  else if node_type = "compressor" then .COMPRESSOR_MANAGEMENT
  else if node_type = "sink" then .FLOW_REGULATION
  else if i % 4 = 0 then .VALVE_CONTROL
  else if i % 4 = 1 then .SAFETY_MONITORING
  else if i % 4 = 2 then .LEAK_DETECTION
  else if i % 4 = 3 then .TEMPERATURE_CONTROL
  else .EMERGENCY_SHUTDOWN

/-- The `for i, node_id in enumerate(node_ids[:8])` loop of
`initialize_plcs`, started at position `i`; nodes are (id, type) pairs
in dict order. -/
def assignLoop (i : ℕ) : List (String × String) → List (String × PLCType)
  | [] => []
  | (node_id, node_type) :: rest =>
      (node_id, assignByRole i node_type) :: assignLoop (i + 1) rest

/-- Insertion order of the `PLCManager.plc_types` dict. -/
def plcTypesOrder : List PLCType :=
  [.PRESSURE_CONTROL, .FLOW_REGULATION, .COMPRESSOR_MANAGEMENT, .VALVE_CONTROL,
   .SAFETY_MONITORING, .LEAK_DETECTION, .TEMPERATURE_CONTROL, .EMERGENCY_SHUTDOWN]

/-- The small-network branch of `initialize_plcs`: cycle all eight kinds
round-robin over the available nodes. -/
def roundRobinLoop (i : ℕ) : List (String × String) → List (String × PLCType)
  | [] => []
  | (node_id, _) :: rest =>
      (node_id, plcTypesOrder.getD (i % plcTypesOrder.length) .PRESSURE_CONTROL) ::
        roundRobinLoop (i + 1) rest

/-- Method `PLCManager.initialize_plcs`, up to the point where the
assignment list is fixed: with 8 or more nodes, assign kinds to the
first 8 nodes by the cascade, then overwrite the first assignment with
EMERGENCY_SHUTDOWN if none was assigned; with fewer nodes, round-robin
all eight kinds. -/
def initializePLCAssignments (nodes : List (String × String)) :
    List (String × PLCType) :=
  if nodes.length ≥ 8 then
    let asg := assignLoop 0 (nodes.take 8)
    if asg.any (fun p => p.2 = .EMERGENCY_SHUTDOWN) then asg
    else
      match asg with
      | [] => []
      | (node_id, _) :: rest => (node_id, .EMERGENCY_SHUTDOWN) :: rest
  else
    roundRobinLoop 0 nodes

/-- The (id, type) node list of the built-in GasLib-style topology of
`GasPhysicsEngine.load_gaslib_network`, in dict insertion order. -/
def gaslibNodes : List (String × String) :=
  [("Source_1", "source"), ("Junction_1", "junction"), ("Junction_2", "junction"),
   ("Compressor_1", "compressor"), ("Junction_3", "junction"),
   ("Junction_4", "junction"), ("Sink_1", "sink"), ("Sink_2", "sink")]

/-! Physics step (physics/gas_physics_engine.py). -/

/-- A node dict of the physics network: `type`, `pressure`,
`temperature` (the `x`/`y` coordinates are never read by the step). -/
structure NodeSt where
  ntype : String
  pressure : ℚ
  temperature : ℚ
deriving DecidableEq, Repr

/-- A pipe dict of the physics network; `flow_rate` and `pressure_drop`
are dict keys first created by the step, hence optional. -/
structure PipeSt where
  from_node : String
  to_node : String
  length : ℚ
  diameter : ℚ
  flow_rate : Option ℚ
  pressure_drop : Option ℚ
deriving DecidableEq, Repr

/-- The `network_data` dict: insertion-ordered node and pipe dicts. -/
structure Net where
  nodes : List (String × NodeSt)
  pipes : List (String × PipeSt)
deriving DecidableEq, Repr

/-- Call `random.gauss(mu, sigma)`: consume one draw from the stream. -/
def gaussDraw (r : List ℚ) (mu sigma : ℚ) : ℚ × List ℚ :=
  match r with
  | [] => (mu, [])
  | x :: rest => (mu + sigma * x, rest)

/-- Call `random.random()`: consume one draw from the stream. -/
def uniformDraw (r : List ℚ) : ℚ × List ℚ :=
  match r with
  | [] => (0, [])
  | x :: rest => (x, rest)

/-- The node-update body of `simulate_step` for one node: sources walk
by `gauss(0, 0.5)`; compressors rise to a cap of 80 when the
`compressor_speed_<id>` reading exceeds 1000 and decay to a floor of 30
otherwise; sinks drop by `flow_<id> / 100` floored at 25; junctions walk
by `gauss(0, 0.2)`; every node's temperature becomes
`20 + gauss(0, 1)`. -/
def stepNode (sensor_data : List (String × Value)) (node_id : String)
    (n : NodeSt) (r : List ℚ) : NodeSt × List ℚ :=
  let (pressure, r) :=
    if n.ntype = "source" then
      let (g, r) := gaussDraw r 0 (1/2)
      (n.pressure + g, r)
    else if n.ntype = "compressor" then
      let running := decide
        (((lookupAssoc sensor_data ("compressor_speed_" ++ node_id)).getD (.vq 0)).toNum > 1000)
      (if running then min 80 (n.pressure + 3) else max 30 (n.pressure - 1), r)
    else if n.ntype = "sink" then
      let consumption :=
        ((lookupAssoc sensor_data ("flow_" ++ node_id)).getD (.vq 50)).toNum
      (max 25 (n.pressure - consumption / 100), r)
    else
      let (g, r) := gaussDraw r 0 (1/5)
      (n.pressure + g, r)
  let (g2, r) := gaussDraw r 0 1
  ({ n with pressure := pressure, temperature := 20 + g2 }, r)

/-- The node loop of `simulate_step`: update every node in dict order,
threading the random stream. -/
def stepNodes (sensor_data : List (String × Value)) :
    List (String × NodeSt) → List ℚ → List (String × NodeSt) × List ℚ
  | [], r => ([], r)
  | (node_id, n) :: rest, r =>
      let (n', r') := stepNode sensor_data node_id n r
      let (rest', r'') := stepNodes sensor_data rest r'
      ((node_id, n') :: rest', r'')

/-- The pipe-flow formula of `simulate_step`:
`flow_rate = max(0, pressure_diff * flow_capacity / length)` with
`flow_capacity = diameter ** 2 * 100` and
`pressure_diff = from_node pressure - to_node pressure`. -/
def calcPipeFlow (p_from p_to diameter pipe_len : ℚ) : ℚ :=
  max 0 ((p_from - p_to) * (diameter ^ 2 * 100) / pipe_len)

/-- The pipe loop of `simulate_step`: in dict order, look up the two end
nodes (a dangling reference raises `KeyError`, a zero length raises
`ZeroDivisionError`; either exception leaves the already-processed
prefix mutated and the rest untouched) and store the computed
`flow_rate` and `pressure_drop` into the pipe dict. -/
def stepPipes (nodes : List (String × NodeSt)) :
    List (String × PipeSt) → HookResult (List (String × PipeSt))
  | [] => .ok []
  | (pipe_id, p) :: rest =>
      match lookupAssoc nodes p.from_node, lookupAssoc nodes p.to_node with
      | some fn, some tn =>
          if p.length = 0 then
            .err ((pipe_id, p) :: rest) "float division by zero"
          else
            let p' := { p with
              flow_rate := some (calcPipeFlow fn.pressure tn.pressure p.diameter p.length),
              pressure_drop := some (fn.pressure - tn.pressure) }
            match stepPipes nodes rest with
            | .ok rest' => .ok ((pipe_id, p') :: rest')
            | .err rest' msg => .err ((pipe_id, p') :: rest') msg
      | _, _ => .err ((pipe_id, p) :: rest) "KeyError"

/-- The body of `GasPhysicsEngine.simulate_step` inside its `try`: run
the node loop, then the pipe loop; an exception carries the partially
mutated network. -/
def simulateStepBody (net : Net) (sensor_data : List (String × Value))
    (r : List ℚ) : HookResult Net :=
  let nodes' := (stepNodes sensor_data net.nodes r).1
  match stepPipes nodes' net.pipes with
  | .ok pipes' => .ok { nodes := nodes', pipes := pipes' }
  | .err pipes' msg => .err { nodes := nodes', pipes := pipes' } msg

/-- Method `GasPhysicsEngine.simulate_step`: the whole body runs inside
`try`, and any exception is caught and logged, so the call always
returns normally with whatever state the body left behind. -/
def simulateStep (net : Net) (sensor_data : List (String × Value))
    (r : List ℚ) : Net :=
  match simulateStepBody net sensor_data r with
  | .ok net' => net'
  | .err net' _ => net'

/-! Sensor model (sensors/sensor_manager.py). -/

/-- A sensor dict as created by `SensorManager.add_sensor` (the
`calibration_date` string is never read and is not modelled). -/
structure SensorSt where
  stype : String
  location : String
  value : Value
  last_update : ℚ
  quality : String
deriving DecidableEq, Repr

/-- The location test of the `compressor_status` branch:
`location.startswith('compressor') or 'compressor' in location`. -/
def containsCompressor (loc : String) : Bool :=
  String.isPrefixOf "compressor" loc ||
    decide ((loc.splitOn "compressor").length > 1)

/-- Method `SensorManager.simulate_sensor_reading`: one reading from the
sensor's type, its prior value, the ground-truth network, the call's
clock instant and the random stream.  `math.sin` is a transcendental
float routine with no exact rational counterpart; it enters the
embedding as the function parameter `sinq`, applied exactly where the
source applies `math.sin`. -/
def simulateSensorReading (sinq : ℚ → ℚ) (net : Net) (t : ℚ) (s : SensorSt)
    (r : List ℚ) : Value × List ℚ :=
  if s.stype = "pressure" then
    let base := match lookupAssoc net.nodes s.location with
      | some n => n.pressure
      | none => 50
    let (noise, r) := gaussDraw r 0 (1/2)
    (.vq (max 0 (base + noise)), r)
  else if s.stype = "temperature" then
    let seasonal := 5 * sinq (t / 8640)
    let (noise, r) := gaussDraw r 0 (1/10)
    (.vq (20 + seasonal + noise), r)
  else if s.stype = "flow" then
    let (variation, r) := gaussDraw r 0 5
    (.vq (max 0 (100 + variation)), r)
  else if s.stype = "vibration" then
    let wear := min 2 (t / 100000)
    let (noise, r) := gaussDraw r 0 (1/10)
    (.vq (max 0 (1/2 + wear + noise)), r)
  else if s.stype = "gas_composition" then
    let (drift, r) := gaussDraw r 0 (1/2)
    (.vq (max 90 (min 100 (95 + drift))), r)
  else if s.stype = "leak_detection" then
    let (u, r) := uniformDraw r
    (.vb (decide (u < 1/1000)), r)
  else if s.stype = "valve_position" then
    let current := s.value.toNum
    let movement := (50 - current) * (1/10)
    (.vq (max 0 (min 100 (current + movement))), r)
  else if s.stype = "compressor_status" then
    if containsCompressor s.location then
      let (u, r) := uniformDraw r
      if u < 4/5 then
        let (g, r) := gaussDraw r 3000 50
        (.vq g, r)
      else (.vq 0, r)
    else (.vq 0, r)
  else
    let current := s.value.toNum
    let (change, r) := gaussDraw r 0 (|current| * (1/100) + 1/10)
    (.vq (current + change), r)

/-- Method `SensorManager.update_all_sensors`: one pass over the sensor
dict in insertion order at clock instant `t`; each sensor's stored value
and `last_update` are refreshed and the readings dict is returned. -/
def updateAllSensors (sinq : ℚ → ℚ) (net : Net) (t : ℚ) :
    List (String × SensorSt) → List ℚ →
    List (String × SensorSt) × List (String × Value) × List ℚ
  | [], r => ([], [], r)
  | (sensor_id, s) :: rest, r =>
      let (v, r') := simulateSensorReading sinq net t s r
      let s' := { s with value := v, last_update := t }
      let (rest', data, r'') := updateAllSensors sinq net t rest r'
      ((sensor_id, s') :: rest', (sensor_id, v) :: data, r'')

/-- A multi-tick run of `update_all_sensors` against a fixed topology:
one call per clock instant in `times`, threading the sensor states and
the random stream, collecting the sequence of readings dicts. -/
def runSensorUpdates (sinq : ℚ → ℚ) (net : Net) :
    List (String × SensorSt) → List ℚ → List ℚ →
    List (List (String × Value))
  | _, [], _ => []
  | sensors, t :: ts, r =>
      let (sensors', data, r') := updateAllSensors sinq net t sensors r
      data :: runSensorUpdates sinq net sensors' ts r'

/-! Concrete instances used by the verification below. -/

/-- A one-junction network whose single pipe references a node id that
is not in the node dict: the pipe loop of `simulate_step` raises
`KeyError` after the node loop has already mutated the junction. -/
def c7Net : Net :=
  ⟨[("A", ⟨"junction", 50, 20⟩)], [("P", ⟨"A", "B", 10, 4/5, none, none⟩)]⟩

/-- The state `simulate_step` leaves behind on `c7Net` with noise
stream `[1, 1]`: node A's pressure and temperature are already updated
when the dangling pipe reference raises. -/
def c7NetAfter : Net :=
  ⟨[("A", ⟨"junction", 251/5, 21⟩)], [("P", ⟨"A", "B", 10, 4/5, none, none⟩)]⟩

/-- A single vibration sensor, for exercising the wear term of the
sensor model. -/
def c8Sensors : List (String × SensorSt) :=
  [("vibration_A", ⟨"vibration", "A", .vq (1/2), 0, "GOOD"⟩)]

/-- An empty ground-truth network. -/
def c8Net : Net := ⟨[], []⟩

/-- The OR of the four trigger values as stored in a controller's input
map, exactly as `EmergencyShutdownPLC.execute_logic` reads them. -/
def esdInputTrigger (s : PLCState ESDCore) : Bool :=
  (getInput s "EMERGENCY_BUTTON" (.vb false)).toBool ||
  (getInput s "HIGH_PRESSURE_TRIP" (.vb false)).toBool ||
  (getInput s "FIRE_DETECTED" (.vb false)).toBool ||
  (getInput s "GAS_LEAK" (.vb false)).toBool

/-- A freshly constructed Emergency Shutdown controller at node `N1`
(the `BasePLC` constructor state: active, scan period 0.1, empty maps,
latch clear). -/
def c1State : PLCState ESDCore :=
  ⟨"PLC_EMERGENCY_SHUTDOWN_N1", "N1", "EMERGENCY_SHUTDOWN", [], [], [],
    true, 1/10, 0, ⟨false⟩⟩

/-- A single HIGH-severity alarm record. -/
def scadaHighAlarm : SCADAAlarm :=
  ⟨"PLC_PRESSURE_CONTROL_Source_1", "Source_1", "HIGH_PRESSURE", "HIGH",
    "High pressure", 0, false⟩

/-- A single LOW-severity alarm record. -/
def scadaLowAlarm : SCADAAlarm :=
  ⟨"PLC_VALVE_CONTROL_Junction_1", "Junction_1", "STATUS", "LOW",
    "Status note", 0, false⟩

/-- Hooks whose input hook always raises, leaving the state unchanged:
the smallest concrete misbehaving controller. -/
def failingHooks : Hooks Unit :=
  ⟨fun _ _ s => .err s "boom", fun _ s => .ok s⟩

/-- A minimal active controller state for exercising the scan driver. -/
def plainState : PLCState Unit :=
  ⟨"PLC_TEST_N1", "N1", "TEST", [], [], [], true, 1/10, 0, ()⟩

/-! Helper lemmas about association-list update and lookup. -/

theorem find?_map_upd {α : Type} (m : List (String × α)) (k : String) (v : α) :
    (m.map (fun p => if p.1 = k then (k, v) else p)).find?
        (fun p => decide (p.1 = k)) =
      if m.any (fun p => decide (p.1 = k)) then some (k, v) else none := by
  induction m with
  | nil => rfl
  | cons a as ih =>
      by_cases hak : a.1 = k
      · simp [List.find?_cons, hak]
      · have h1 : (if a.1 = k then (k, v) else a) = a := if_neg hak
        simp only [List.map_cons, h1, List.find?_cons, decide_eq_false hak,
          List.any_cons, Bool.false_or]
        exact ih

theorem find?_map_upd_ne {α : Type} (m : List (String × α)) (k k' : String)
    (v : α) (h : k' ≠ k) :
    (m.map (fun p => if p.1 = k' then (k', v) else p)).find?
        (fun p => decide (p.1 = k)) =
      m.find? (fun p => decide (p.1 = k)) := by
  induction m with
  | nil => rfl
  | cons a as ih =>
      simp only [List.map_cons]
      by_cases hak' : a.1 = k'
      · have h1 : (if a.1 = k' then (k', v) else a) = (k', v) := if_pos hak'
        rw [h1]
        have e1 : (decide ((k', v).1 = k)) = false := by simpa using h
        have e2 : (decide (a.1 = k)) = false := by simp [hak', h]
        simp only [List.find?_cons, e1, e2]
        exact ih
      · have h1 : (if a.1 = k' then (k', v) else a) = a := if_neg hak'
        rw [h1]
        cases e : decide (a.1 = k) with
        | true => simp only [List.find?_cons, e]
        | false => simp only [List.find?_cons, e]; exact ih

theorem lookupAssoc_setAssoc_self {α : Type} (m : List (String × α))
    (k : String) (v : α) : lookupAssoc (setAssoc m k v) k = some v := by
  unfold setAssoc lookupAssoc
  by_cases hany : (m.any (fun p => decide (p.1 = k))) = true
  · rw [if_pos hany, find?_map_upd, if_pos hany]
  · rw [if_neg hany, List.find?_append]
    have hnone : m.find? (fun p => decide (p.1 = k)) = none := by
      simp only [List.find?_eq_none]
      intro x hx hpx
      exact hany (List.any_eq_true.mpr ⟨x, hx, hpx⟩)
    simp [hnone]

theorem lookupAssoc_setAssoc_ne {α : Type} (m : List (String × α))
    (k k' : String) (v : α) (h : k' ≠ k) :
    lookupAssoc (setAssoc m k' v) k = lookupAssoc m k := by
  unfold setAssoc lookupAssoc
  by_cases hany : (m.any (fun p => decide (p.1 = k'))) = true
  · rw [if_pos hany, find?_map_upd_ne _ _ _ _ h]
  · rw [if_neg hany, List.find?_append]
    have h2 : ([((k', v))].find? (fun p => decide (p.1 = k))) = none := by
      simp [List.find?_cons, h]
    cases hm : m.find? (fun p => decide (p.1 = k)) <;> simp [hm, h2]

theorem getOutput_setOutput_self {σ : Type} (s : PLCState σ) (now : ℚ)
    (a : String) (v : Value) : getOutput (setOutput s now a v) a = some v := by
  simp [getOutput, setOutput, lookupAssoc_setAssoc_self]

theorem getOutput_setOutput_ne {σ : Type} (s : PLCState σ) (now : ℚ)
    (a a' : String) (v : Value) (h : a' ≠ a) :
    getOutput (setOutput s now a' v) a = getOutput s a := by
  simp [getOutput, setOutput, lookupAssoc_setAssoc_ne _ _ _ _ h]

theorem getInput_updateInput_self {σ : Type} (s : PLCState σ) (now : ℚ)
    (a : String) (v : Value) (q : String) (dv : Value) :
    getInput (updateInput s now a v q) a dv = v := by
  simp [getInput, updateInput, lookupAssoc_setAssoc_self]

theorem getInput_updateInput_ne {σ : Type} (s : PLCState σ) (now : ℚ)
    (a a' : String) (v : Value) (q : String) (dv : Value) (h : a' ≠ a) :
    getInput (updateInput s now a' v q) a dv = getInput s a dv := by
  simp [getInput, updateInput, lookupAssoc_setAssoc_ne _ _ _ _ h]

/-- Shared shape of the `except` branch of `execute_scan`: when the
controller is active, the gate passes, and one of the two hooks raises
leaving partial state `s'`, the call returns the empty map and the
partial state with exactly the scan-error alarm appended. -/
theorem executeScan_failure_eq {σ : Type} (hk : Hooks σ) (s : PLCState σ)
    (d : List (String × Value)) (now : ℚ) (s' : PLCState σ) (msg : String)
    (hact : s.is_active = true) (hsc : shouldScan s now = true)
    (hf : hookFailure hk s d now s' msg) :
    executeScan hk s d now =
      ([], addAlarm s' now ("SCAN_ERROR_" ++ s'.plc_id) "HIGH"
        ("PLC scan error: " ++ msg)) := by
  have hgate : ¬ (¬ s.is_active ∨ ¬ shouldScan s now) := by
    simp [hact, hsc]
  unfold executeScan
  rw [if_neg hgate]
  rcases hf with h | ⟨s1, h1, h2⟩
  · rw [h]
  · simp only [h1, h2]

/-- C2 counterexample: a SCADA state still holding one CRITICAL alarm
from the previous call is updated on a call during which the controller
fleet reports no alarms at all; the returned status is CRITICAL although
the classification of the current call's (empty) alarm set is NORMAL —
the status is computed from the retained prior alarm set, refuting the
claim as stated. -/
theorem scada_update_stale_counterexample :
    (scadaUpdate ⟨"NORMAL",
        [⟨"PLC_EMERGENCY_SHUTDOWN_Source_1", "Source_1", "EMERGENCY_SHUTDOWN",
          "CRITICAL", "Emergency shutdown activated", 0, false⟩]⟩ []).2.1 =
      "CRITICAL" ∧
    evaluateSystemStatus [] = "NORMAL" := by
  exact ⟨by decide, by decide⟩

/-- C2 (amended): on every call, the system status `update` returns is
the classification of the alarm list retained from the previous call
(`self.alarms` before the refresh) — it is independent of the alarm set
collected from the fleet during the current call, which is only stored
for the next call; the aggregator thus does keep one call's worth of
alarm memory. -/
theorem scada_update_uses_prior_alarms (s : SCADAState)
    (cur cur' : List SCADAAlarm) :
    (scadaUpdate s cur).2.1 = evaluateSystemStatus s.alarms ∧
    (scadaUpdate s cur).1.system_status = evaluateSystemStatus s.alarms ∧
    (scadaUpdate s cur).1.alarms = cur ∧
    (scadaUpdate s cur).2.2 = cur.length ∧
    (scadaUpdate s cur).2.1 = (scadaUpdate s cur').2.1 :=
  ⟨rfl, rfl, rfl, rfl, rfl⟩

/-- C4: the aggregator's classification returns CRITICAL as soon as one
alarm has severity CRITICAL; otherwise ALARM when more than two alarms
have severity HIGH; otherwise WARNING when at least one alarm has
severity HIGH; otherwise NORMAL — and the result is unchanged by adding
(equivalently, removing) an alarm of severity LOW or MEDIUM. -/
theorem scada_evaluate_classification (alarms : List SCADAAlarm)
    (extra : SCADAAlarm)
    (hlm : extra.severity = "LOW" ∨ extra.severity = "MEDIUM") :
    ((∃ a ∈ alarms, a.severity = "CRITICAL") →
        evaluateSystemStatus alarms = "CRITICAL") ∧
    ((∀ a ∈ alarms, a.severity ≠ "CRITICAL") →
        2 < (alarms.filter (fun a => a.severity = "HIGH")).length →
        evaluateSystemStatus alarms = "ALARM") ∧
    ((∀ a ∈ alarms, a.severity ≠ "CRITICAL") →
        (alarms.filter (fun a => a.severity = "HIGH")).length ≤ 2 →
        0 < (alarms.filter (fun a => a.severity = "HIGH")).length →
        evaluateSystemStatus alarms = "WARNING") ∧
    ((∀ a ∈ alarms, a.severity ≠ "CRITICAL") →
        (alarms.filter (fun a => a.severity = "HIGH")).length = 0 →
        evaluateSystemStatus alarms = "NORMAL") ∧
    evaluateSystemStatus (extra :: alarms) = evaluateSystemStatus alarms := by
  have hC : ¬ extra.severity = "CRITICAL" := by
    rcases hlm with h | h <;> rw [h] <;> decide
  have hH : ¬ extra.severity = "HIGH" := by
    rcases hlm with h | h <;> rw [h] <;> decide
  refine ⟨?_, ?_, ?_, ?_, ?_⟩
  · rintro ⟨b, hmem, hsev⟩
    have h1 : 0 < (alarms.filter (fun a => a.severity = "CRITICAL")).length :=
      List.length_pos_of_mem (List.mem_filter.mpr ⟨hmem, by simp [hsev]⟩)
    simp [evaluateSystemStatus, h1]
  · intro hnc hh
    have h0 : (alarms.filter (fun a => a.severity = "CRITICAL")).length = 0 := by
      rw [List.length_eq_zero, List.filter_eq_nil_iff]
      intro a ha
      simpa using hnc a ha
    simp [evaluateSystemStatus, h0, hh]
  · intro hnc hle hpos
    have h0 : (alarms.filter (fun a => a.severity = "CRITICAL")).length = 0 := by
      rw [List.length_eq_zero, List.filter_eq_nil_iff]
      intro a ha
      simpa using hnc a ha
    have hn2 : ¬ 2 < (alarms.filter (fun a => a.severity = "HIGH")).length := by
      omega
    simp [evaluateSystemStatus, h0, hn2, hpos]
  · intro hnc hz
    have h0 : (alarms.filter (fun a => a.severity = "CRITICAL")).length = 0 := by
      rw [List.length_eq_zero, List.filter_eq_nil_iff]
      intro a ha
      simpa using hnc a ha
    simp [evaluateSystemStatus, h0, hz]
  · simp [evaluateSystemStatus, List.filter_cons, hC, hH]

/-- C5: when a hook raises during an active, due scan, `execute_scan`
catches the exception, appends exactly one HIGH-severity alarm whose id
begins with `SCAN_ERROR` to the controller's alarm log, and returns the
empty output map. -/
theorem execute_scan_exception_contained {σ : Type} (hk : Hooks σ)
    (s : PLCState σ) (d : List (String × Value)) (now : ℚ)
    (s' : PLCState σ) (msg : String)
    (hact : s.is_active = true) (hsc : shouldScan s now = true)
    (hf : hookFailure hk s d now s' msg) :
    (executeScan hk s d now).1 = [] ∧
    (executeScan hk s d now).2.alarms =
      s'.alarms ++ [⟨"SCAN_ERROR_" ++ s'.plc_id, "HIGH",
        "PLC scan error: " ++ msg, now, false⟩] ∧
    ∃ rest, "SCAN_ERROR_" ++ s'.plc_id = "SCAN_ERROR" ++ rest := by
  have main := executeScan_failure_eq hk s d now s' msg hact hsc hf
  refine ⟨by rw [main], by rw [main]; rfl, ⟨"_" ++ s'.plc_id, ?_⟩⟩
  have h1 : "SCAN_ERROR_" = "SCAN_ERROR" ++ "_" := by decide
  rw [h1, String.append_assoc]

/-- C10: when a hook raises during an active, due scan, `last_scan` is
not stamped — the post-state is the hook's partial state with only the
scan-error alarm appended, so the active flag and the scan schedule are
those the hooks left (unchanged, since no subclass hook touches them),
and the next call's gate is evaluated against the old `last_scan`: it
may open even less than `scan_time` after the failed attempt. -/
theorem execute_scan_failure_frame {σ : Type} (hk : Hooks σ)
    (s : PLCState σ) (d : List (String × Value)) (now t2 : ℚ)
    (s' : PLCState σ) (msg : String)
    (hact : s.is_active = true) (hsc : shouldScan s now = true)
    (hf : hookFailure hk s d now s' msg)
    (hpre : sched s' = sched s) :
    (executeScan hk s d now).1 = [] ∧
    (executeScan hk s d now).2.last_scan = s.last_scan ∧
    (executeScan hk s d now).2.is_active = s.is_active ∧
    (executeScan hk s d now).2.scan_time = s.scan_time ∧
    (executeScan hk s d now).2.inputs = s'.inputs ∧
    (executeScan hk s d now).2.outputs = s'.outputs ∧
    (executeScan hk s d now).2.custom = s'.custom ∧
    shouldScan (executeScan hk s d now).2 t2 = shouldScan s t2 ∧
    (s.scan_time ≤ t2 - s.last_scan →
      shouldScan (executeScan hk s d now).2 t2 = true) := by
  have hls : s'.last_scan = s.last_scan := congrArg (fun x => x.1) hpre
  have hst : s'.scan_time = s.scan_time := congrArg (fun x => x.2.1) hpre
  have hia : s'.is_active = s.is_active := congrArg (fun x => x.2.2.1) hpre
  have main := executeScan_failure_eq hk s d now s' msg hact hsc hf
  rw [main]
  refine ⟨rfl, by simp [addAlarm, hls], by simp [addAlarm, hia],
    by simp [addAlarm, hst], rfl, rfl, rfl, ?_, ?_⟩
  · simp [shouldScan, addAlarm, hls, hst]
  · intro h
    simp [shouldScan, addAlarm, hls, hst, h]

/-- C9: the pipe-flow value computed in the physics step is 0 whenever
the upstream pressure does not strictly exceed the downstream pressure,
is never negative, is monotone non-decreasing in the pressure
difference and in the diameter, and monotone non-increasing in the
length. -/
theorem pipe_flow_monotonicity (p_from p_to p_from' p_to' dia dia' len len' : ℚ)
    (hlen : 0 < len) (hlen' : len ≤ len') (hdia0 : 0 ≤ dia)
    (hdia : dia ≤ dia') (hdp : p_from - p_to ≤ p_from' - p_to') :
    (p_from ≤ p_to → calcPipeFlow p_from p_to dia len = 0) ∧
    0 ≤ calcPipeFlow p_from p_to dia len ∧
    calcPipeFlow p_from p_to dia len ≤ calcPipeFlow p_from' p_to' dia len ∧
    calcPipeFlow p_from p_to dia len ≤ calcPipeFlow p_from p_to dia' len ∧
    calcPipeFlow p_from p_to dia len' ≤ calcPipeFlow p_from p_to dia len := by
  have hc0 : (0:ℚ) ≤ dia ^ 2 * 100 := by positivity
  have hdia0' : (0:ℚ) ≤ dia' := le_trans hdia0 hdia
  have hc0' : (0:ℚ) ≤ dia' ^ 2 * 100 := by positivity
  have hlen0' : (0:ℚ) < len' := lt_of_lt_of_le hlen hlen'
  have zero_of_nonpos : ∀ dp c l : ℚ, dp ≤ 0 → 0 ≤ c → 0 < l →
      max 0 (dp * c / l) = 0 := by
    intro dp c l h1 h2 h3
    exact max_eq_left
      (div_nonpos_of_nonpos_of_nonneg (mul_nonpos_of_nonpos_of_nonneg h1 h2) h3.le)
  refine ⟨?_, le_max_left 0 _, ?_, ?_, ?_⟩
  · intro hle
    exact zero_of_nonpos _ _ _ (by linarith) hc0 hlen
  · apply max_le_max le_rfl
    rw [div_le_div_iff_of_pos_right hlen]
    exact mul_le_mul_of_nonneg_right hdp hc0
  · by_cases hdpn : 0 ≤ p_from - p_to
    · apply max_le_max le_rfl
      rw [div_le_div_iff_of_pos_right hlen]
      exact mul_le_mul_of_nonneg_left
        (mul_le_mul_of_nonneg_right (pow_le_pow_left₀ hdia0 hdia 2) (by norm_num))
        hdpn
    · unfold calcPipeFlow
      rw [zero_of_nonpos _ _ _ (by linarith) hc0 hlen,
        zero_of_nonpos _ _ _ (by linarith) hc0' hlen]
  · by_cases hdpn : 0 ≤ p_from - p_to
    · unfold calcPipeFlow
      apply max_le_max le_rfl
      have hnum : 0 ≤ (p_from - p_to) * (dia ^ 2 * 100) :=
        mul_nonneg hdpn hc0
      rw [div_eq_mul_one_div ((p_from - p_to) * (dia ^ 2 * 100)) len',
        div_eq_mul_one_div ((p_from - p_to) * (dia ^ 2 * 100)) len]
      exact mul_le_mul_of_nonneg_left (one_div_le_one_div_of_le hlen hlen') hnum
    · unfold calcPipeFlow
      rw [zero_of_nonpos _ _ _ (by linarith) hc0 hlen0',
        zero_of_nonpos _ _ _ (by linarith) hc0 hlen]

/-- C9 witness: concrete evaluation of the flow-monotonicity theorem at
a reversed-gradient pipe (flow 0) against a positive-gradient pipe. -/
theorem pipe_flow_monotonicity_witness :
    ((50:ℚ) ≤ 60 → calcPipeFlow 50 60 (1/2) 10 = 0) ∧
    (0:ℚ) ≤ calcPipeFlow 50 60 (1/2) 10 ∧
    calcPipeFlow 50 60 (1/2) 10 ≤ calcPipeFlow 70 50 (1/2) 10 ∧
    calcPipeFlow 50 60 (1/2) 10 ≤ calcPipeFlow 50 60 1 10 ∧
    calcPipeFlow 50 60 (1/2) 20 ≤ calcPipeFlow 50 60 (1/2) 10 :=
  pipe_flow_monotonicity 50 60 70 50 (1/2) 1 10 20 (by norm_num) (by norm_num)
    (by norm_num) (by norm_num) (by norm_num)


/-- C7 counterexample: on `c7Net` the physics step raises (dangling
`to_node` reference) and the exception is caught, but the ground-truth
state after the call differs from the state before it — the node
updates made before the exception persist, refuting the claim that the
ground truth is left exactly as it was. -/
theorem simulate_step_partial_mutation_counterexample :
    (∃ net' msg, simulateStepBody c7Net [] [1, 1] = .err net' msg) ∧
    simulateStep c7Net [] [1, 1] ≠ c7Net := by
  have hbody : simulateStepBody c7Net [] [1, 1] = .err c7NetAfter "KeyError" := by
    simp only [simulateStepBody, stepNodes, stepNode, gaussDraw, stepPipes,
      lookupAssoc, c7Net, c7NetAfter, List.find?, Value.toNum, calcPipeFlow]
    simp
    norm_num
  constructor
  · exact ⟨c7NetAfter, "KeyError", hbody⟩
  · intro hfix
    have h1 := congrArg
      (fun n : Net => ((n.nodes.getD 0 ("", ⟨"", 0, 0⟩)).2).pressure) hfix
    rw [simulateStep, hbody] at h1
    simp only [c7Net, c7NetAfter, List.getD] at h1
    norm_num at h1

/-- C7 (amended): any exception inside `simulate_step` is caught, so the
call always returns normally (the rest of the tick still runs) and the
physics engine raises no alarm (it owns no alarm log at all); but the
mutations made before the exception persist: the returned network is the
partially mutated state, in which the node loop has already completed —
only the remainder of the pipe loop is skipped. -/
theorem simulate_step_exception_swallowed (net : Net)
    (sensor_data : List (String × Value)) (r : List ℚ) (net' : Net)
    (msg : String)
    (h : simulateStepBody net sensor_data r = .err net' msg) :
    simulateStep net sensor_data r = net' ∧
    net'.nodes = (stepNodes sensor_data net.nodes r).1 := by
  constructor
  · unfold simulateStep
    rw [h]
  · simp only [simulateStepBody] at h
    cases hp : stepPipes (stepNodes sensor_data net.nodes r).1 net.pipes with
    | ok p => rw [hp] at h; simp at h
    | err p m =>
        rw [hp] at h
        simp only [HookResult.err.injEq] at h
        rw [← h.1]

/-- C7 witness: the amended theorem evaluated on the concrete dangling
network `c7Net`. -/
theorem simulate_step_exception_swallowed_witness :
    simulateStep c7Net [] [1, 1] = c7NetAfter ∧
    c7NetAfter.nodes = (stepNodes [] c7Net.nodes [1, 1]).1 :=
  simulate_step_exception_swallowed c7Net [] [1, 1] c7NetAfter "KeyError"
    (by
      simp only [simulateStepBody, stepNodes, stepNode, gaussDraw, stepPipes,
        lookupAssoc, c7Net, c7NetAfter, List.find?, Value.toNum, calcPipeFlow]
      simp
      norm_num)


/-- C8 counterexample: two 100-tick runs of `update_all_sensors` with
the same random stream, the same initial sensor state and the same
(fixed) topology, differing only in the wall-clock instants at which the
calls happen, produce different reading sequences: the vibration wear
term reads `time.time()` directly, so the readings are not a function of
seed, prior values and topology alone. -/
theorem sensor_update_time_dependence_counterexample :
    runSensorUpdates (fun _ => 0) c8Net c8Sensors
        (0 :: List.replicate 99 0) (0 :: List.replicate 99 0) ≠
      runSensorUpdates (fun _ => 0) c8Net c8Sensors
        (100000 :: List.replicate 99 100000) (0 :: List.replicate 99 0) := by
  intro h
  generalize List.replicate 99 (0:ℚ) = ts0 at h
  generalize List.replicate 99 (100000:ℚ) = ts1 at h
  have h1 := congrArg (fun l => l.head?) h
  simp only [runSensorUpdates, updateAllSensors, simulateSensorReading,
    gaussDraw, uniformDraw, c8Sensors, c8Net, Value.toNum, List.head?] at h1
  simp [min_def] at h1
  norm_num at h1

/-- C8 (amended): the sensor readings are a deterministic function of
the random stream, the prior sensor states, the ground-truth topology
and the wall-clock instants of the calls — two 100-tick runs agreeing on
all four of these inputs (not merely on seed, priors and topology)
produce identical reading sequences. -/
theorem sensor_update_deterministic (sinq₁ sinq₂ : ℚ → ℚ) (net₁ net₂ : Net)
    (ss₁ ss₂ : List (String × SensorSt)) (r₁ r₂ : List ℚ) (ts₁ ts₂ : List ℚ)
    (h0 : sinq₁ = sinq₂) (h1 : net₁ = net₂) (h2 : ss₁ = ss₂) (h3 : r₁ = r₂)
    (h4 : ts₁ = ts₂) (h5 : ts₁.length = 100) :
    runSensorUpdates sinq₁ net₁ ss₁ ts₁ r₁ =
      runSensorUpdates sinq₂ net₂ ss₂ ts₂ r₂ := by
  subst h0; subst h1; subst h2; subst h3; subst h4
  rfl

/-- C8 witness: the determinism theorem at a concrete 100-tick run. -/
theorem sensor_update_deterministic_witness :
    runSensorUpdates (fun _ => 0) c8Net c8Sensors (List.replicate 100 0)
        (List.replicate 100 0) =
      runSensorUpdates (fun _ => 0) c8Net c8Sensors (List.replicate 100 0)
        (List.replicate 100 0) :=
  sensor_update_deterministic (fun _ => 0) (fun _ => 0) c8Net c8Net
    c8Sensors c8Sensors (List.replicate 100 0) (List.replicate 100 0)
    (List.replicate 100 0) (List.replicate 100 0) rfl rfl rfl rfl rfl
    (by simp)


@[simp] theorem setOutput_custom {σ : Type} (s : PLCState σ) (now : ℚ)
    (a : String) (v : Value) : (setOutput s now a v).custom = s.custom := rfl

@[simp] theorem setOutput_inputs {σ : Type} (s : PLCState σ) (now : ℚ)
    (a : String) (v : Value) : (setOutput s now a v).inputs = s.inputs := rfl

@[simp] theorem setOutput_is_active {σ : Type} (s : PLCState σ) (now : ℚ)
    (a : String) (v : Value) : (setOutput s now a v).is_active = s.is_active := rfl

@[simp] theorem setOutput_scan_time {σ : Type} (s : PLCState σ) (now : ℚ)
    (a : String) (v : Value) : (setOutput s now a v).scan_time = s.scan_time := rfl

@[simp] theorem setOutput_last_scan {σ : Type} (s : PLCState σ) (now : ℚ)
    (a : String) (v : Value) : (setOutput s now a v).last_scan = s.last_scan := rfl

@[simp] theorem setOutput_node_id {σ : Type} (s : PLCState σ) (now : ℚ)
    (a : String) (v : Value) : (setOutput s now a v).node_id = s.node_id := rfl

@[simp] theorem setOutput_plc_id {σ : Type} (s : PLCState σ) (now : ℚ)
    (a : String) (v : Value) : (setOutput s now a v).plc_id = s.plc_id := rfl

@[simp] theorem addAlarm_custom {σ : Type} (s : PLCState σ) (now : ℚ)
    (i sev m : String) : (addAlarm s now i sev m).custom = s.custom := rfl

@[simp] theorem addAlarm_inputs {σ : Type} (s : PLCState σ) (now : ℚ)
    (i sev m : String) : (addAlarm s now i sev m).inputs = s.inputs := rfl

@[simp] theorem addAlarm_outputs {σ : Type} (s : PLCState σ) (now : ℚ)
    (i sev m : String) : (addAlarm s now i sev m).outputs = s.outputs := rfl

@[simp] theorem addAlarm_is_active {σ : Type} (s : PLCState σ) (now : ℚ)
    (i sev m : String) : (addAlarm s now i sev m).is_active = s.is_active := rfl

@[simp] theorem addAlarm_scan_time {σ : Type} (s : PLCState σ) (now : ℚ)
    (i sev m : String) : (addAlarm s now i sev m).scan_time = s.scan_time := rfl

@[simp] theorem addAlarm_last_scan {σ : Type} (s : PLCState σ) (now : ℚ)
    (i sev m : String) : (addAlarm s now i sev m).last_scan = s.last_scan := rfl

@[simp] theorem addAlarm_node_id {σ : Type} (s : PLCState σ) (now : ℚ)
    (i sev m : String) : (addAlarm s now i sev m).node_id = s.node_id := rfl

@[simp] theorem addAlarm_plc_id {σ : Type} (s : PLCState σ) (now : ℚ)
    (i sev m : String) : (addAlarm s now i sev m).plc_id = s.plc_id := rfl

@[simp] theorem updateInput_custom {σ : Type} (s : PLCState σ) (now : ℚ)
    (a : String) (v : Value) (q : String) :
    (updateInput s now a v q).custom = s.custom := rfl

@[simp] theorem updateInput_outputs {σ : Type} (s : PLCState σ) (now : ℚ)
    (a : String) (v : Value) (q : String) :
    (updateInput s now a v q).outputs = s.outputs := rfl

@[simp] theorem updateInput_is_active {σ : Type} (s : PLCState σ) (now : ℚ)
    (a : String) (v : Value) (q : String) :
    (updateInput s now a v q).is_active = s.is_active := rfl

@[simp] theorem updateInput_scan_time {σ : Type} (s : PLCState σ) (now : ℚ)
    (a : String) (v : Value) (q : String) :
    (updateInput s now a v q).scan_time = s.scan_time := rfl

@[simp] theorem updateInput_last_scan {σ : Type} (s : PLCState σ) (now : ℚ)
    (a : String) (v : Value) (q : String) :
    (updateInput s now a v q).last_scan = s.last_scan := rfl

@[simp] theorem updateInput_node_id {σ : Type} (s : PLCState σ) (now : ℚ)
    (a : String) (v : Value) (q : String) :
    (updateInput s now a v q).node_id = s.node_id := rfl

@[simp] theorem updateInput_plc_id {σ : Type} (s : PLCState σ) (now : ℚ)
    (a : String) (v : Value) (q : String) :
    (updateInput s now a v q).plc_id = s.plc_id := rfl

@[simp] theorem updateInput_alarms {σ : Type} (s : PLCState σ) (now : ℚ)
    (a : String) (v : Value) (q : String) :
    (updateInput s now a v q).alarms = s.alarms := rfl

/-- What `EmergencyShutdownPLC.execute_logic` does to the state: it
never raises, its result's latch flag is the old flag OR-ed with the
trigger inputs, the published `ESD_ACTIVE` output equals that new flag,
and the scan schedule and identity fields are untouched. -/
theorem esdExecuteLogic_spec (now : ℚ) (s : PLCState ESDCore) :
    ∃ s', esdExecuteLogic now s = .ok s' ∧
      s'.custom.esd_active = (s.custom.esd_active || esdInputTrigger s) ∧
      getOutput s' "ESD_ACTIVE" =
        some (.vb (s.custom.esd_active || esdInputTrigger s)) ∧
      s'.is_active = s.is_active ∧ s'.scan_time = s.scan_time ∧
      s'.last_scan = s.last_scan ∧ s'.node_id = s.node_id ∧
      s'.plc_id = s.plc_id := by
  unfold esdExecuteLogic
  cases hold : s.custom.esd_active <;>
    cases heb : (getInput s "EMERGENCY_BUTTON" (.vb false)).toBool <;>
    cases hhp : (getInput s "HIGH_PRESSURE_TRIP" (.vb false)).toBool <;>
    cases hfd : (getInput s "FIRE_DETECTED" (.vb false)).toBool <;>
    cases hgl : (getInput s "GAS_LEAK" (.vb false)).toBool <;>
    exact ⟨_, rfl,
      by simp [esdInputTrigger, hold, heb, hhp, hfd, hgl, getOutput_setOutput_self],
      by simp [esdInputTrigger, hold, heb, hhp, hfd, hgl, getOutput_setOutput_self],
      by simp [hold, heb, hhp, hfd, hgl],
      by simp [hold, heb, hhp, hfd, hgl],
      by simp [hold, heb, hhp, hfd, hgl],
      by simp [hold, heb, hhp, hfd, hgl],
      by simp [hold, heb, hhp, hfd, hgl]⟩

/-- What `EmergencyShutdownPLC.update_inputs` does to the state: it
never raises, it only writes the input map, and the trigger OR over the
freshly written inputs equals `esdTrigger` of the sensor data for the
controller's node. -/
theorem esdUpdateInputs_spec (now : ℚ) (d : List (String × Value))
    (s : PLCState ESDCore) :
    ∃ u, esdUpdateInputs now d s = .ok u ∧
      u.custom = s.custom ∧ u.outputs = s.outputs ∧
      u.is_active = s.is_active ∧ u.scan_time = s.scan_time ∧
      u.last_scan = s.last_scan ∧ u.node_id = s.node_id ∧
      u.plc_id = s.plc_id ∧ u.alarms = s.alarms ∧
      esdInputTrigger u = esdTrigger s.node_id d := by
  have h1 : ("GAS_LEAK" : String) ≠ "FIRE_DETECTED" := by decide
  have h2 : ("GAS_LEAK" : String) ≠ "HIGH_PRESSURE_TRIP" := by decide
  have h3 : ("GAS_LEAK" : String) ≠ "EMERGENCY_BUTTON" := by decide
  have h4 : ("FIRE_DETECTED" : String) ≠ "HIGH_PRESSURE_TRIP" := by decide
  have h5 : ("FIRE_DETECTED" : String) ≠ "EMERGENCY_BUTTON" := by decide
  have h6 : ("HIGH_PRESSURE_TRIP" : String) ≠ "EMERGENCY_BUTTON" := by decide
  refine ⟨_, rfl, by simp [esdUpdateInputs], by simp [esdUpdateInputs],
    by simp [esdUpdateInputs], by simp [esdUpdateInputs],
    by simp [esdUpdateInputs], by simp [esdUpdateInputs],
    by simp [esdUpdateInputs], by simp [esdUpdateInputs], ?_⟩
  simp only [updateInput_node_id]
  unfold esdInputTrigger esdTrigger
  simp only [updateInput_node_id, getInput_updateInput_self,
    getInput_updateInput_ne _ _ _ _ _ _ _ h1,
    getInput_updateInput_ne _ _ _ _ _ _ _ h2,
    getInput_updateInput_ne _ _ _ _ _ _ _ h3,
    getInput_updateInput_ne _ _ _ _ _ _ _ h4,
    getInput_updateInput_ne _ _ _ _ _ _ _ h5,
    getInput_updateInput_ne _ _ _ _ _ _ _ h6, Value.toBool]

/-- One ESD scan keeps the latch: if `esd_active` is already true it is
still true after any `execute_scan` call (running or skipped), and a
true stored `ESD_ACTIVE` output stays true. -/
theorem esdScan_latch_step (s : PLCState ESDCore) (d : List (String × Value))
    (now : ℚ) (h : s.custom.esd_active = true) :
    (esdScan s d now).2.custom.esd_active = true ∧
    (getOutput s "ESD_ACTIVE" = some (.vb true) →
      getOutput (esdScan s d now).2 "ESD_ACTIVE" = some (.vb true)) := by
  unfold esdScan executeScan
  by_cases hgate : (¬ s.is_active ∨ ¬ shouldScan s now)
  · rw [if_pos hgate]
    exact ⟨h, fun hh => hh⟩
  · rw [if_neg hgate]
    obtain ⟨u, hu, hcust, houts, hia, hst, hls, hnid, hpid, halms, htrig⟩ :=
      esdUpdateInputs_spec now d s
    obtain ⟨s', hl, hact', hout', hia', hst', hls', hnid', hpid'⟩ :=
      esdExecuteLogic_spec now u
    simp only [esdHooks, hu, hl]
    constructor
    · show ({ s' with last_scan := now }).custom.esd_active = true
      have : ({ s' with last_scan := now }).custom = s'.custom := rfl
      rw [this, hact', hcust, h, Bool.true_or]
    · intro _
      show getOutput { s' with last_scan := now } "ESD_ACTIVE" = some (.vb true)
      have heq : getOutput { s' with last_scan := now } "ESD_ACTIVE" =
          getOutput s' "ESD_ACTIVE" := rfl
      rw [heq, hout', hcust, h, Bool.true_or]

/-- A scan that actually runs while a trigger condition holds in the
sensor data sets the latch and publishes `ESD_ACTIVE = true`. -/
theorem esdScan_trigger_step (s : PLCState ESDCore)
    (d : List (String × Value)) (now : ℚ) (hact : s.is_active = true)
    (hsc : shouldScan s now = true) (htr : esdTrigger s.node_id d = true) :
    (esdScan s d now).2.custom.esd_active = true ∧
    getOutput (esdScan s d now).2 "ESD_ACTIVE" = some (.vb true) := by
  unfold esdScan executeScan
  have hgate : ¬ (¬ s.is_active ∨ ¬ shouldScan s now) := by simp [hact, hsc]
  rw [if_neg hgate]
  obtain ⟨u, hu, hcust, houts, hia, hst, hls, hnid, hpid, halms, htrig⟩ :=
    esdUpdateInputs_spec now d s
  obtain ⟨s', hl, hact', hout', hia', hst', hls', hnid', hpid'⟩ :=
    esdExecuteLogic_spec now u
  simp only [esdHooks, hu, hl]
  have hnew : s'.custom.esd_active = true := by
    rw [hact', htrig, htr, Bool.or_true]
  constructor
  · show ({ s' with last_scan := now }).custom.esd_active = true
    have : ({ s' with last_scan := now }).custom = s'.custom := rfl
    rw [this, hnew]
  · show getOutput { s' with last_scan := now } "ESD_ACTIVE" = some (.vb true)
    have heq : getOutput { s' with last_scan := now } "ESD_ACTIVE" =
        getOutput s' "ESD_ACTIVE" := rfl
    rw [heq, hout', htrig, htr, Bool.or_true]

/-- Any sequence of further scans preserves the latch and the published
`ESD_ACTIVE = true` output. -/
theorem esdRun_latch (calls : List (List (String × Value) × ℚ)) :
    ∀ s : PLCState ESDCore, s.custom.esd_active = true →
      getOutput s "ESD_ACTIVE" = some (.vb true) →
      (runScans esdHooks s calls).custom.esd_active = true ∧
      getOutput (runScans esdHooks s calls) "ESD_ACTIVE" = some (.vb true) := by
  induction calls with
  | nil => intro s h1 h2; exact ⟨h1, h2⟩
  | cons c rest ih =>
      intro s h1 h2
      have hstep := esdScan_latch_step s c.1 c.2 h1
      show (runScans esdHooks (stepState esdHooks s c) rest).custom.esd_active =
          true ∧ _
      exact ih (stepState esdHooks s c) hstep.1 (hstep.2 h2)

/-- C1: on a scan that runs while any trigger input (emergency button,
pressure above 90, fire, gas leak) is present in the sensor data, the
ESD controller latches `esd_active` and publishes `ESD_ACTIVE = true`;
every subsequent scan — with arbitrary sensor data, including all
triggers cleared — keeps both true, and no other controller operation
(alarm acknowledgement, alarm clearing, external input writes) ever
returns `esd_active` from true to false. -/
theorem esd_latching (s : PLCState ESDCore) (d : List (String × Value))
    (now : ℚ) (calls : List (List (String × Value) × ℚ))
    (s₀ : PLCState ESDCore) (aid addr : String) (v : Value) (t' : ℚ)
    (hact : s.is_active = true) (hsc : shouldScan s now = true)
    (htr : esdTrigger s.node_id d = true) :
    (esdScan s d now).2.custom.esd_active = true ∧
    getOutput (esdScan s d now).2 "ESD_ACTIVE" = some (.vb true) ∧
    (runScans esdHooks (esdScan s d now).2 calls).custom.esd_active = true ∧
    getOutput (runScans esdHooks (esdScan s d now).2 calls) "ESD_ACTIVE" =
      some (.vb true) ∧
    (acknowledgeAlarm s₀ aid).custom.esd_active = s₀.custom.esd_active ∧
    (clearAcknowledgedAlarms s₀).custom.esd_active = s₀.custom.esd_active ∧
    (updateInput s₀ t' addr v).custom.esd_active = s₀.custom.esd_active := by
  have hstep := esdScan_trigger_step s d now hact hsc htr
  have hrun := esdRun_latch calls (esdScan s d now).2 hstep.1 hstep.2
  exact ⟨hstep.1, hstep.2, hrun.1, hrun.2, rfl, rfl, rfl⟩


/-- C1 witness: the latch theorem evaluated on a concrete scan at time 1
with the emergency button pressed, followed by a scan at time 2 with the
button released. -/
theorem esd_latching_witness :
    shouldScan c1State 1 = true ∧
    esdTrigger c1State.node_id [("emergency_button_N1", Value.vb true)] = true ∧
    (runScans esdHooks
        (esdScan c1State [("emergency_button_N1", Value.vb true)] 1).2
        [([], 2)]).custom.esd_active = true ∧
    getOutput (runScans esdHooks
        (esdScan c1State [("emergency_button_N1", Value.vb true)] 1).2
        [([], 2)]) "ESD_ACTIVE" = some (.vb true) := by
  have hsc : shouldScan c1State 1 = true := by
    simp [shouldScan, c1State]
    norm_num
  have htr : esdTrigger c1State.node_id
      [("emergency_button_N1", Value.vb true)] = true := by
    simp [esdTrigger, c1State, lookupAssoc, List.find?, Value.toBool]
  have main := esd_latching c1State [("emergency_button_N1", Value.vb true)]
    1 [([], 2)] c1State "EMERGENCY_SHUTDOWN" "X" (Value.vb false) 3
    rfl hsc htr
  exact ⟨hsc, htr, main.2.2.1, main.2.2.2.1⟩

theorem sched_eq_components {σ : Type} {a b : PLCState σ}
    (h : sched a = sched b) :
    a.last_scan = b.last_scan ∧ a.scan_time = b.scan_time ∧
    a.is_active = b.is_active := by
  exact ⟨congrArg (fun x => x.1) h, congrArg (fun x => x.2.1) h,
    congrArg (fun x => x.2.2.1) h⟩

/-- The ESD controller's hooks leave the scan schedule alone. -/
theorem esd_preservesSchedule : preservesSchedule esdHooks := by
  constructor
  · intro now d s
    obtain ⟨u, hu, hcust, houts, hia, hst, hls, hnid, hpid, halms, htrig⟩ :=
      esdUpdateInputs_spec now d s
    show sched (esdUpdateInputs now d s).state = sched s
    rw [hu]
    show sched u = sched s
    unfold sched
    rw [hls, hst, hia, hpid]
  · intro now s
    obtain ⟨s', hl, hact', hout', hia', hst', hls', hnid', hpid'⟩ :=
      esdExecuteLogic_spec now s
    show sched (esdExecuteLogic now s).state = sched s
    rw [hl]
    show sched s' = sched s
    unfold sched
    rw [hls', hst', hia', hpid']

/-- One `execute_scan` call, for hooks that preserve the schedule:
the scan period and active flag are unchanged; a successful scan stamps
`last_scan := now`; any other call leaves `last_scan` alone. -/
theorem executeScan_sched_step {σ : Type} (hk : Hooks σ)
    (hp : preservesSchedule hk) (s : PLCState σ)
    (d : List (String × Value)) (t : ℚ) :
    (stepState hk s (d, t)).scan_time = s.scan_time ∧
    (stepState hk s (d, t)).is_active = s.is_active ∧
    (scanSucceeds hk s d t → (stepState hk s (d, t)).last_scan = t) ∧
    (¬ scanSucceeds hk s d t →
      (stepState hk s (d, t)).last_scan = s.last_scan) := by
  unfold stepState executeScan
  by_cases hgate : (¬ s.is_active ∨ ¬ shouldScan s t)
  · rw [if_pos hgate]
    refine ⟨rfl, rfl, ?_, fun _ => rfl⟩
    intro hsucc
    exfalso
    rcases hsucc with ⟨h1, h2, _⟩
    rcases hgate with hg | hg
    · rw [h1] at hg; exact hg rfl
    · rw [h2] at hg; exact hg rfl
  · rw [if_neg hgate]
    push_neg at hgate
    have hact : s.is_active = true := hgate.1
    have hsc : shouldScan s t = true := hgate.2
    cases hu : hk.updInputs t d s with
    | err s1 m =>
        have hsch1 := sched_eq_components (hp.1 t d s)
        rw [hu] at hsch1
        simp only [HookResult.state] at hsch1
        refine ⟨by simp [hsch1.2.1], by simp [hsch1.2.2], ?_, ?_⟩
        · intro hsucc
          obtain ⟨-, -, s1', s2', hu', -⟩ := hsucc
          rw [hu] at hu'
          exact absurd hu' (by simp)
        · intro _
          simp [addAlarm, hsch1.1]
    | ok s1 =>
        have hsch1 := sched_eq_components (hp.1 t d s)
        rw [hu] at hsch1
        simp only [HookResult.state] at hsch1
        cases hl : hk.execLogic t s1 with
        | err s2 m =>
            have hsch2 := sched_eq_components (hp.2 t s1)
            rw [hl] at hsch2
            simp only [HookResult.state] at hsch2
            refine ⟨by simp [hl, addAlarm, hsch2.2.1, hsch1.2.1],
              by simp [hl, addAlarm, hsch2.2.2, hsch1.2.2], ?_, ?_⟩
            · intro hsucc
              obtain ⟨-, -, s1', s2', hu', hl'⟩ := hsucc
              rw [hu] at hu'
              have : s1' = s1 := by
                simpa using hu'.symm
              rw [this] at hl'
              rw [hl] at hl'
              exact absurd hl' (by simp)
            · intro _
              simp [hl, addAlarm, hsch2.1, hsch1.1]
        | ok s2 =>
            have hsch2 := sched_eq_components (hp.2 t s1)
            rw [hl] at hsch2
            simp only [HookResult.state] at hsch2
            refine ⟨by simp [hl, hsch2.2.1, hsch1.2.1],
              by simp [hl, hsch2.2.2, hsch1.2.2], by intro _; simp [hl], ?_⟩
            · intro hns
              exfalso
              exact hns ⟨hact, hsc, s1, s2, hu, hl⟩

/-- A run of calls none of which scans successfully leaves the whole
scan schedule unchanged (for schedule-preserving hooks). -/
theorem runScans_noSuccess_sched {σ : Type} (hk : Hooks σ)
    (hp : preservesSchedule hk) :
    ∀ (calls : List (List (String × Value) × ℚ)) (s : PLCState σ),
      noSuccessRun hk s calls →
      (runScans hk s calls).last_scan = s.last_scan ∧
      (runScans hk s calls).scan_time = s.scan_time ∧
      (runScans hk s calls).is_active = s.is_active := by
  intro calls
  induction calls with
  | nil => intro s _; exact ⟨rfl, rfl, rfl⟩
  | cons c rest ih =>
      intro s hns
      obtain ⟨hfail, hrest⟩ := hns
      have hstep := executeScan_sched_step hk hp s c.1 c.2
      have ihr := ih (stepState hk s c) hrest
      simp only [runScans]
      refine ⟨?_, ?_, ?_⟩
      · rw [ihr.1]
        exact hstep.2.2.2 hfail
      · rw [ihr.2.1]
        exact hstep.1
      · rw [ihr.2.2]
        exact hstep.2.1

/-- C6: `execute_scan` returns the empty map and leaves the state
untouched whenever the controller is inactive or less than `scan_time`
has elapsed since `last_scan`; `last_scan` never decreases across a
call; and two consecutive successful scans — with any number of
unsuccessful calls between them — are at least `scan_time` apart. -/
theorem scan_schedule_properties {σ : Type} (hk : Hooks σ) (s : PLCState σ)
    (d₀ : List (String × Value)) (t₀ : ℚ)
    (mid : List (List (String × Value) × ℚ))
    (d₁ : List (String × Value)) (t₁ : ℚ)
    (hp : preservesSchedule hk) (hst : 0 ≤ s.scan_time) :
    ((s.is_active = false ∨ shouldScan s t₀ = false) →
      executeScan hk s d₀ t₀ = ([], s)) ∧
    s.last_scan ≤ (stepState hk s (d₀, t₀)).last_scan ∧
    (scanSucceeds hk s d₀ t₀ →
      noSuccessRun hk (stepState hk s (d₀, t₀)) mid →
      scanSucceeds hk (runScans hk (stepState hk s (d₀, t₀)) mid) d₁ t₁ →
      s.scan_time ≤ t₁ - t₀) := by
  have hstep := executeScan_sched_step hk hp s d₀ t₀
  refine ⟨?_, ?_, ?_⟩
  · intro hskip
    unfold executeScan
    rw [if_pos ?_]
    rcases hskip with h | h
    · exact Or.inl (by rw [h]; exact fun hh => by cases hh)
    · exact Or.inr (by rw [h]; exact fun hh => by cases hh)
  · by_cases hsucc : scanSucceeds hk s d₀ t₀
    · rw [hstep.2.2.1 hsucc]
      obtain ⟨-, hsc, -⟩ := hsucc
      have : s.scan_time ≤ t₀ - s.last_scan := by
        simpa [shouldScan] using hsc
      linarith
    · rw [hstep.2.2.2 hsucc]
  · intro h0 hmid h1
    have hls0 : (stepState hk s (d₀, t₀)).last_scan = t₀ := hstep.2.2.1 h0
    have hmidsched := runScans_noSuccess_sched hk hp mid
      (stepState hk s (d₀, t₀)) hmid
    obtain ⟨-, hsc1, -⟩ := h1
    have : (runScans hk (stepState hk s (d₀, t₀)) mid).scan_time ≤
        t₁ - (runScans hk (stepState hk s (d₀, t₀)) mid).last_scan := by
      simpa [shouldScan] using hsc1
    rw [hmidsched.1, hls0, hmidsched.2.1, hstep.1] at this
    linarith

/-- C6 witness: the schedule theorem evaluated on a fresh ESD controller
scanned successfully at times 1 and 2 with no calls in between. -/
theorem scan_schedule_properties_witness :
    scanSucceeds esdHooks c1State [] 1 ∧
    noSuccessRun esdHooks (stepState esdHooks c1State ([], 1)) [] ∧
    scanSucceeds esdHooks
      (runScans esdHooks (stepState esdHooks c1State ([], 1)) []) [] 2 ∧
    c1State.scan_time ≤ 2 - 1 := by
  have hsucc1 : scanSucceeds esdHooks c1State [] 1 := by
    refine ⟨rfl, ?_, ?_⟩
    · simp [shouldScan, c1State]
      norm_num
    · obtain ⟨u, hu, -⟩ := esdUpdateInputs_spec 1 [] c1State
      obtain ⟨s2, hl, -⟩ := esdExecuteLogic_spec 1 u
      exact ⟨u, s2, hu, hl⟩
  have hstep := executeScan_sched_step esdHooks esd_preservesSchedule
    c1State [] 1
  have hsucc2 : scanSucceeds esdHooks
      (runScans esdHooks (stepState esdHooks c1State ([], 1)) []) [] 2 := by
    show scanSucceeds esdHooks (stepState esdHooks c1State ([], 1)) [] 2
    refine ⟨?_, ?_, ?_⟩
    · rw [hstep.2.1]
      rfl
    · have hls : (stepState esdHooks c1State ([], 1)).last_scan = 1 :=
        hstep.2.2.1 hsucc1
      have hstime : (stepState esdHooks c1State ([], 1)).scan_time =
          c1State.scan_time := hstep.1
      simp only [shouldScan, hls, hstime, decide_eq_true_eq]
      norm_num [c1State]
    · obtain ⟨u, hu, -⟩ :=
        esdUpdateInputs_spec 2 [] (stepState esdHooks c1State ([], 1))
      obtain ⟨s2, hl, -⟩ := esdExecuteLogic_spec 2 u
      exact ⟨u, s2, hu, hl⟩
  have main := scan_schedule_properties esdHooks c1State [] 1 [] [] 2
    esd_preservesSchedule (by norm_num [c1State])
  exact ⟨hsucc1, trivial, hsucc2, main.2.2 hsucc1 trivial hsucc2⟩

/-- The role cascade of `initialize_plcs` can never produce
EMERGENCY_SHUTDOWN: the four `i % 4` arms are exhaustive, so the final
`else` arm is dead code. -/
theorem assignByRole_ne_esd (i : ℕ) (t : String) :
    assignByRole i t ≠ .EMERGENCY_SHUTDOWN := by
  unfold assignByRole
  have h4 : i % 4 < 4 := Nat.mod_lt _ (by norm_num)
  split_ifs with h1 h2 h3 ha hb hc hd <;> simp_all <;> omega

theorem assignLoop_length (i : ℕ) (l : List (String × String)) :
    (assignLoop i l).length = l.length := by
  induction l generalizing i with
  | nil => rfl
  | cons a rest ih => simp [assignLoop, ih]

theorem assignLoop_any_esd (i : ℕ) (l : List (String × String)) :
    (assignLoop i l).any (fun p => p.2 = PLCType.EMERGENCY_SHUTDOWN) = false := by
  induction l generalizing i with
  | nil => rfl
  | cons a rest ih =>
      simp [assignLoop, List.any_cons, ih, assignByRole_ne_esd]

theorem assignLoop_countP_esd (i : ℕ) (l : List (String × String)) :
    (assignLoop i l).countP (fun p => p.2 = PLCType.EMERGENCY_SHUTDOWN) = 0 := by
  induction l generalizing i with
  | nil => rfl
  | cons a rest ih =>
      simp [assignLoop, List.countP_cons, ih, assignByRole_ne_esd]

theorem assignLoop_getD (l : List (String × String)) :
    ∀ (i j : ℕ), j < l.length →
      (assignLoop i l).getD j ("", PLCType.PRESSURE_CONTROL) =
        ((l.getD j ("", "")).1, assignByRole (i + j) (l.getD j ("", "")).2) := by
  induction l with
  | nil => intro i j h; simp at h
  | cons a rest ih =>
      intro i j h
      cases j with
      | zero => simp [assignLoop]
      | succ j =>
          simp only [assignLoop, List.getD_cons_succ]
          rw [ih (i + 1) j (by simpa using Nat.lt_of_succ_lt_succ h)]
          have : i + 1 + j = i + (j + 1) := by omega
          rw [this]

theorem getD_take {α : Type} (l : List α) :
    ∀ (n j : ℕ) (d : α), j < n → (l.take n).getD j d = l.getD j d := by
  induction l with
  | nil => intro n j d _; simp
  | cons a rest ih =>
      intro n j d h
      cases n with
      | zero => omega
      | succ n =>
          cases j with
          | zero => simp [List.take_succ_cons]
          | succ j =>
              simp only [List.take_succ_cons, List.getD_cons_succ]
              exact ih n j d (by omega)

/-- C3 counterexample: on the built-in 8-node GasLib-style topology the
first node, `Source_1`, is a source, yet after fleet initialization it
carries the Emergency Shutdown controller and no Pressure Control
controller — the forced-ESD overwrite always hits the first node because
the cascade never assigns ESD naturally, refuting the claim that every
source node receives a Pressure Control controller. -/
theorem plc_assignment_source_counterexample :
    ("Source_1", "source") ∈ gaslibNodes ∧
    8 ≤ gaslibNodes.length ∧
    lookupAssoc (initializePLCAssignments gaslibNodes) "Source_1" =
      some PLCType.EMERGENCY_SHUTDOWN ∧
    ¬ lookupAssoc (initializePLCAssignments gaslibNodes) "Source_1" =
      some PLCType.PRESSURE_CONTROL := by
  refine ⟨by decide, by decide, by decide, by decide⟩

/-- C3 (amended): for any topology with at least 8 nodes, exactly one
Emergency Shutdown controller is assigned, and it always sits on the
first node (whatever that node's type), because the natural cascade
never yields ESD; every other node among the first 8 of type
source/compressor/sink receives its role-specific controller kind. -/
theorem plc_fleet_assignment (nodes : List (String × String)) (i : ℕ)
    (h8 : 8 ≤ nodes.length) (hi1 : 1 ≤ i) (hi : i < 8) :
    (initializePLCAssignments nodes).length = 8 ∧
    (initializePLCAssignments nodes).countP
      (fun p => p.2 = PLCType.EMERGENCY_SHUTDOWN) = 1 ∧
    ((initializePLCAssignments nodes).getD 0
      ("", PLCType.PRESSURE_CONTROL)).1 = (nodes.getD 0 ("", "")).1 ∧
    ((initializePLCAssignments nodes).getD 0
      ("", PLCType.PRESSURE_CONTROL)).2 = PLCType.EMERGENCY_SHUTDOWN ∧
    ((initializePLCAssignments nodes).getD i
      ("", PLCType.PRESSURE_CONTROL)).1 = (nodes.getD i ("", "")).1 ∧
    ((nodes.getD i ("", "")).2 = "source" →
      ((initializePLCAssignments nodes).getD i
        ("", PLCType.PRESSURE_CONTROL)).2 = PLCType.PRESSURE_CONTROL) ∧
    ((nodes.getD i ("", "")).2 = "compressor" →
      ((initializePLCAssignments nodes).getD i
        ("", PLCType.PRESSURE_CONTROL)).2 = PLCType.COMPRESSOR_MANAGEMENT) ∧
    ((nodes.getD i ("", "")).2 = "sink" →
      ((initializePLCAssignments nodes).getD i
        ("", PLCType.PRESSURE_CONTROL)).2 = PLCType.FLOW_REGULATION) := by
  have hlen8 : (nodes.take 8).length = 8 := by
    rw [List.length_take]
    omega
  have hmain : initializePLCAssignments nodes =
      match assignLoop 0 (nodes.take 8) with
      | [] => []
      | (node_id, _) :: rest => (node_id, PLCType.EMERGENCY_SHUTDOWN) :: rest := by
    unfold initializePLCAssignments
    rw [if_pos h8, if_neg]
    rw [assignLoop_any_esd]
    exact Bool.false_ne_true
  have hnatlen : (assignLoop 0 (nodes.take 8)).length = 8 := by
    rw [assignLoop_length, hlen8]
  have hnatgetD : ∀ j, j < 8 →
      (assignLoop 0 (nodes.take 8)).getD j ("", PLCType.PRESSURE_CONTROL) =
        ((nodes.getD j ("", "")).1, assignByRole j (nodes.getD j ("", "")).2) := by
    intro j hj
    rw [assignLoop_getD (nodes.take 8) 0 j (by omega)]
    rw [getD_take nodes 8 j ("", "") hj]
    simp
  cases hnat : assignLoop 0 (nodes.take 8) with
  | nil => rw [hnat] at hnatlen; simp at hnatlen
  | cons hd tl =>
      rw [hnat] at hmain hnatlen hnatgetD
      have hcount : (hd :: tl).countP
          (fun p => p.2 = PLCType.EMERGENCY_SHUTDOWN) = 0 := by
        rw [← hnat]
        exact assignLoop_countP_esd 0 (nodes.take 8)
      have htl : tl.countP (fun p => p.2 = PLCType.EMERGENCY_SHUTDOWN) = 0 := by
        rw [List.countP_cons] at hcount
        omega
      obtain ⟨hd1, hd2⟩ := hd
      have hres : initializePLCAssignments nodes =
          (hd1, PLCType.EMERGENCY_SHUTDOWN) :: tl := hmain
      obtain ⟨j, rfl⟩ : ∃ j, i = j + 1 := ⟨i - 1, by omega⟩
      have hgetDi : ((hd1, hd2) :: tl).getD (j + 1)
          ("", PLCType.PRESSURE_CONTROL) =
          ((nodes.getD (j + 1) ("", "")).1,
            assignByRole (j + 1) (nodes.getD (j + 1) ("", "")).2) :=
        hnatgetD (j + 1) hi
      rw [List.getD_cons_succ] at hgetDi
      have hgetD0 : ((hd1, hd2) :: tl).getD 0 ("", PLCType.PRESSURE_CONTROL) =
          ((nodes.getD 0 ("", "")).1,
            assignByRole 0 (nodes.getD 0 ("", "")).2) :=
        hnatgetD 0 (by omega)
      rw [List.getD_cons_zero] at hgetD0
      rw [hres]
      refine ⟨?_, ?_, ?_, ?_, ?_, ?_, ?_, ?_⟩
      · simp only [List.length_cons]
        simpa using hnatlen
      · simp [List.countP_cons, htl]
      · simp only [List.getD_cons_zero]
        have := congrArg Prod.fst hgetD0
        simpa using this
      · simp only [List.getD_cons_zero]
      · simp only [List.getD_cons_succ]
        rw [hgetDi]
      · intro hsrc
        simp only [List.getD_cons_succ]
        rw [hgetDi]
        show assignByRole (j + 1) (nodes.getD (j + 1) ("", "")).2 = _
        rw [hsrc]
        rfl
      · intro hcmp
        simp only [List.getD_cons_succ]
        rw [hgetDi]
        show assignByRole (j + 1) (nodes.getD (j + 1) ("", "")).2 = _
        rw [hcmp]
        rfl
      · intro hsnk
        simp only [List.getD_cons_succ]
        rw [hgetDi]
        show assignByRole (j + 1) (nodes.getD (j + 1) ("", "")).2 = _
        rw [hsnk]
        rfl

/-- C3 witness: the amended assignment theorem on the built-in topology,
at index 6 (`Sink_1`, a sink node). -/
theorem plc_fleet_assignment_witness :
    8 ≤ gaslibNodes.length ∧
    (gaslibNodes.getD 6 ("", "")).2 = "sink" ∧
    (initializePLCAssignments gaslibNodes).countP
      (fun p => p.2 = PLCType.EMERGENCY_SHUTDOWN) = 1 ∧
    ((initializePLCAssignments gaslibNodes).getD 0
      ("", PLCType.PRESSURE_CONTROL)).2 = PLCType.EMERGENCY_SHUTDOWN ∧
    ((initializePLCAssignments gaslibNodes).getD 6
      ("", PLCType.PRESSURE_CONTROL)).2 = PLCType.FLOW_REGULATION := by
  have main := plc_fleet_assignment gaslibNodes 6 (by decide) (by decide)
    (by decide)
  exact ⟨by decide, by decide, main.2.1, main.2.2.2.1,
    main.2.2.2.2.2.2.2 (by decide)⟩


/-- C4 witness: the classification theorem at one HIGH alarm, with a
LOW alarm added. -/
theorem scada_evaluate_classification_witness :
    (scadaLowAlarm.severity = "LOW" ∨ scadaLowAlarm.severity = "MEDIUM") ∧
    evaluateSystemStatus [scadaHighAlarm] = "WARNING" ∧
    evaluateSystemStatus (scadaLowAlarm :: [scadaHighAlarm]) =
      evaluateSystemStatus [scadaHighAlarm] := by
  have main := scada_evaluate_classification [scadaHighAlarm] scadaLowAlarm
    (Or.inl rfl)
  exact ⟨Or.inl rfl,
    main.2.2.1 (by decide) (by decide) (by decide), main.2.2.2.2⟩


/-- C5 witness: the exception-containment theorem at a concrete failing
scan. -/
theorem execute_scan_exception_contained_witness :
    plainState.is_active = true ∧
    shouldScan plainState 1 = true ∧
    hookFailure failingHooks plainState [] 1 plainState "boom" ∧
    (executeScan failingHooks plainState [] 1).1 = [] ∧
    (executeScan failingHooks plainState [] 1).2.alarms =
      plainState.alarms ++ [⟨"SCAN_ERROR_" ++ plainState.plc_id, "HIGH",
        "PLC scan error: boom", 1, false⟩] := by
  have hsc : shouldScan plainState 1 = true := by
    simp only [shouldScan, decide_eq_true_eq]
    norm_num [plainState]
  have hf : hookFailure failingHooks plainState [] 1 plainState "boom" :=
    Or.inl rfl
  have main := execute_scan_exception_contained failingHooks plainState [] 1
    plainState "boom" rfl hsc hf
  exact ⟨rfl, hsc, hf, main.1, main.2.1⟩

/-- C10 witness: after the failed scan at time 1, the gate for a call at
time 21/20 is already open again (21/20 − 0 ≥ 1/10) even though only
1/20 < 1/10 has elapsed since the failed attempt. -/
theorem execute_scan_failure_frame_witness :
    (executeScan failingHooks plainState [] 1).2.last_scan =
      plainState.last_scan ∧
    (executeScan failingHooks plainState [] 1).2.is_active =
      plainState.is_active ∧
    shouldScan (executeScan failingHooks plainState [] 1).2 (21/20) =
      shouldScan plainState (21/20) ∧
    shouldScan (executeScan failingHooks plainState [] 1).2 (21/20) = true ∧
    (21/20 : ℚ) - 1 < plainState.scan_time := by
  have hsc : shouldScan plainState 1 = true := by
    simp only [shouldScan, decide_eq_true_eq]
    norm_num [plainState]
  have hf : hookFailure failingHooks plainState [] 1 plainState "boom" :=
    Or.inl rfl
  have main := execute_scan_failure_frame failingHooks plainState [] 1 (21/20)
    plainState "boom" rfl hsc hf rfl
  exact ⟨main.2.1, main.2.2.1, main.2.2.2.2.2.2.2.1,
    main.2.2.2.2.2.2.2.2 (by norm_num [plainState]),
    by norm_num [plainState]⟩

end GasSim
